import Mathlib

/-!
Shallow embedding of the freight-delay-app core (TypeScript sources under src/)
and verification of its specification claims.

JavaScript numbers are modelled by `JSNumber`: either NaN or an exact rational.
Comparisons, subtraction, `Math.max`, `Math.ceil` follow IEEE NaN semantics
(every comparison involving NaN is false; arithmetic propagates NaN).  The
rational payload represents the numeric value exactly; the claims under
verification are about order, max and ceiling identities, which the source
states over JS numbers.
-/

namespace Freight

/-- A JavaScript number: NaN or a rational value. -/
inductive JSNumber where
  | nan : JSNumber
  | num : ℚ → JSNumber
deriving DecidableEq, Repr

namespace JSNumber

/-- JS `a < b` (false when either side is NaN). -/
def lt : JSNumber → JSNumber → Bool
  | num a, num b => decide (a < b)
  | _, _ => false

/-- JS `a <= b` (false when either side is NaN). -/
def le : JSNumber → JSNumber → Bool
  | num a, num b => decide (a ≤ b)
  | _, _ => false

/-- JS `a > b`. -/
def gt (a b : JSNumber) : Bool := lt b a

/-- JS `isNaN(a)`. -/
def isNaN : JSNumber → Bool
  | nan => true
  | num _ => false

/-- JS `a - b` (NaN-propagating). -/
def sub : JSNumber → JSNumber → JSNumber
  | num a, num b => num (a - b)
  | _, _ => nan

/-- JS `Math.max(a, b)` (NaN if either argument is NaN). -/
def jsMax : JSNumber → JSNumber → JSNumber
  | num a, num b => num (max a b)
  | _, _ => nan

/-- JS `Math.ceil a`. -/
def ceil : JSNumber → JSNumber
  | num a => num (Int.ceil a : ℤ)
  | nan => nan

/-- JS division by a nonzero rational constant (the source only divides a
duration by the literal 60). -/
def divConst : JSNumber → ℚ → JSNumber
  | num a, c => num (a / c)
  | nan, _ => nan

/-- JS strict equality `a === b` with a number literal (NaN === x is false). -/
def strictEq : JSNumber → JSNumber → Bool
  | num a, num b => decide (a = b)
  | _, _ => false

/-- JS `Number.prototype.toString`.  Exact for integer values (the only values
the claims evaluate); non-integral rationals use the Lean rational rendering
and NaN renders as the JS literal. -/
def jsToString : JSNumber → String
  | nan => "NaN"
  | num q => if q.den = 1 then toString q.num else toString q

end JSNumber

/-! ## String helpers mirroring the JavaScript string operations used -/

/-- JS `String.prototype.trim` (standard whitespace). -/
def jsTrim (s : String) : String :=
  ⟨((s.data.dropWhile Char.isWhitespace).reverse.dropWhile Char.isWhitespace).reverse⟩

/-- Does `text` contain `pat` as a contiguous sublist? -/
def listContains (text pat : List Char) : Bool :=
  match text with
  | [] => pat.isEmpty
  | c :: rest => pat.isPrefixOf (c :: rest) || listContains rest pat

/-- JS `haystack.includes(needle)`. -/
def jsIncludes (haystack needle : String) : Bool :=
  listContains haystack.data needle.data

/-- The character class `[^\s@]` of the email pattern. -/
def emailClassChar (c : Char) : Bool := !(c.isWhitespace || c = '@')

/-- The email pattern used at every entry point, from
delay-notification.ts line 93: one or more `[^\s@]`, an `@`, then a domain
matching `[^\s@]+\.[^\s@]+`.  Because `[^\s@]` excludes `@`, a match forces
exactly one `@`; the domain matches iff it is `@`-free, whitespace-free and
has a dot that is neither its first nor its last character. -/
def emailRegexTest (s : String) : Bool :=
  match s.data.splitOn '@' with
  | [localPart, domain] =>
    !localPart.isEmpty && localPart.all emailClassChar &&
      domain.all emailClassChar && ((domain.drop 1).dropLast.contains '.')
  | _ => false

/-- JS `String.prototype.replace` with a plain-string pattern: replaces the
first occurrence only. -/
def replaceFirstList (s pat rep : List Char) : List Char :=
  match s with
  | [] => if pat.isEmpty then rep else []
  | c :: rest =>
    if pat.isPrefixOf (c :: rest) then rep ++ (c :: rest).drop pat.length
    else c :: replaceFirstList rest pat rep

/-- String version of `replaceFirstList`. -/
def replaceFirst (s pat rep : String) : String :=
  ⟨replaceFirstList s.data pat.data rep.data⟩

/-! ## Data model (src/src/types)

The embedding works over the typed value records of the TypeScript
interfaces; the `typeof`/null checks of the validation functions hold
identically on every typed value and are noted where they are elided.
`Date` values are modelled as epoch milliseconds (ℤ). -/

/-- delivery-route.ts: `DeliveryRoute`. -/
structure DeliveryRoute where
  routeId : String
  origin : String
  destination : String
  baselineTimeMinutes : JSNumber
deriving DecidableEq, Repr

/-- traffic-data.ts: `TrafficData`. -/
structure TrafficData where
  currentTravelTimeMinutes : JSNumber
  delayMinutes : JSNumber
  trafficConditions : String
  retrievedAt : ℤ
deriving DecidableEq, Repr

/-- delay-notification.ts: `DelayNotification`. -/
structure DelayNotification where
  customerId : String
  customerEmail : String
  route : DeliveryRoute
  delayMinutes : JSNumber
  message : String
  sentAt : Option ℤ
deriving DecidableEq, Repr

/-- workflow-config.ts: `WorkflowConfig`. -/
structure WorkflowConfig where
  delayThresholdMinutes : JSNumber
  retryAttempts : JSNumber
  fallbackMessage : String
deriving DecidableEq, Repr

/-- traffic-data.ts: the `duration_in_traffic`-style value object
(`text`, `value` in seconds). -/
structure GMDuration where
  text : String
  value : JSNumber
deriving DecidableEq, Repr

/-- traffic-data.ts: one element of a `GoogleMapsResponse` row (the unused
optional `distance`/`duration` fields carry no behaviour and are omitted). -/
structure GMElement where
  duration_in_traffic : Option GMDuration
  status : String
deriving DecidableEq, Repr

/-- traffic-data.ts: one row of a `GoogleMapsResponse`. -/
structure GMRow where
  elements : List GMElement
deriving DecidableEq, Repr

/-- traffic-data.ts: `GoogleMapsResponse`. -/
structure GoogleMapsResponse where
  destination_addresses : List String
  origin_addresses : List String
  rows : List GMRow
  status : String
deriving DecidableEq, Repr

/-- freight-delay-monitor-workflow.ts: the `customer` field of
`FreightDelayMonitorInput`. -/
structure CustomerInfo where
  customerId : String
  customerEmail : String
deriving DecidableEq, Repr

/-- freight-delay-monitor-workflow.ts: `FreightDelayMonitorInput`. -/
structure FreightDelayMonitorInput where
  route : DeliveryRoute
  customer : CustomerInfo
  config : WorkflowConfig
deriving DecidableEq, Repr

/-- freight-delay-monitor-workflow.ts: `FreightDelayMonitorResult`. -/
structure FreightDelayMonitorResult where
  delayDetected : Bool
  delayMinutes : JSNumber
  notificationSent : Bool
  errorMessage : Option String
  completedAt : ℤ
deriving DecidableEq, Repr

/-- The `ApplicationFailure` the workflow throws on a fatal step failure
(message, failure type, and the detail fields the source attaches). -/
structure WorkflowFailure where
  message : String
  failureType : String
  routeId : String
  customerId : String
deriving DecidableEq, Repr

/-- The shape of an error reaching `isRetryableError` in the SendGrid
activity: a message, an optional Node error `code`, and an optional HTTP
response status. -/
structure SendGridError where
  message : String
  code : Option String
  status : Option ℤ
deriving DecidableEq, Repr

/-! ## Validation functions -/

/-- delay-notification.ts lines 79-115: `validateDelayNotification`, over
typed notifications.  The `typeof`-and-null guards hold on every typed value:
the object check, the string/number type checks, the route-presence check and
the `sentAt instanceof Date` check always pass, so only the value conditions
remain.  A falsy (empty) string fails the same clause as a
whitespace-only one except for the email, where the emptiness check throws
its own message. -/
def validateDelayNotification (n : DelayNotification) : Except String Unit :=
  if jsTrim n.customerId = "" then
    .error "Customer ID must be a non-empty string"
  else if n.customerEmail = "" then
    .error "Customer email must be a string"
  else if !emailRegexTest n.customerEmail then
    .error "Customer email must be a valid email address"
  else if JSNumber.lt n.delayMinutes (JSNumber.num 0) then
    .error "Delay minutes must be a non-negative number"
  else if jsTrim n.message = "" then
    .error "Message must be a non-empty string"
  else .ok ()

/-- traffic-data.ts (types) lines 182-204: `validateTrafficData` over typed
traffic data.  `delayMinutes` only has its number type checked (always true
here, NaN included); `retrievedAt` is a `Date` instance so its clause
passes. -/
def validateTrafficData (d : TrafficData) : Except String Unit :=
  if JSNumber.lt d.currentTravelTimeMinutes (JSNumber.num 0) then
    .error "Current travel time must be a non-negative number"
  else if d.trafficConditions = "" then
    .error "Traffic conditions must be a non-empty string"
  else .ok ()

/-! ## Delay analysis activity (src/src/activities/delay-analysis-activity.ts) -/

/-- Lines 16-53: `calculateDelay`.  The delay-mismatch comparison against
`trafficData.delayMinutes` (line 39) only emits a console warning, so it has
no counterpart in the returned value. -/
def calculateDelay (trafficData : TrafficData) (baseline : JSNumber) :
    Except String JSNumber :=
  match validateTrafficData trafficData with
  | .error e => .error e
  | .ok _ =>
    if JSNumber.le baseline (JSNumber.num 0) then
      .error "Baseline travel time must be a positive number"
    else
      .ok (JSNumber.jsMax (JSNumber.num 0)
        (JSNumber.sub trafficData.currentTravelTimeMinutes baseline))

/-- Lines 61-93: `exceedsThreshold`. -/
def exceedsThreshold (delay threshold : JSNumber) : Except String Bool :=
  if JSNumber.lt delay (JSNumber.num 0) || JSNumber.isNaN delay then
    .error "Delay must be a non-negative number"
  else if JSNumber.le threshold (JSNumber.num 0) || JSNumber.isNaN threshold then
    .error "Threshold must be a positive number"
  else .ok (JSNumber.gt delay threshold)

/-! ## Traffic monitoring activity (src/src/activities/traffic-monitoring-activity.ts) -/

/-- Lines 180-190 of the traffic activity: classification of
`trafficConditions` by delay magnitude. -/
def delayConditions (delayMinutes : JSNumber) : String :=
  if JSNumber.strictEq delayMinutes (JSNumber.num 0) then "Normal traffic conditions"
  else if JSNumber.le delayMinutes (JSNumber.num 15) then "Light traffic delays"
  else if JSNumber.le delayMinutes (JSNumber.num 30) then "Moderate traffic delays"
  else "Heavy traffic delays"

/-- Lines 143-206: `parseGoogleMapsResponse`.  `now` stands for the
`new Date()` recorded in `retrievedAt`. -/
def parseGoogleMapsResponse (response : GoogleMapsResponse)
    (baselineMinutes : JSNumber) (now : ℤ) : Except String TrafficData :=
  if response.rows.isEmpty then
    .error "No route data found in Google Maps response"
  else
    match response.rows.head? >>= fun row => row.elements.head? with
    | none => .error "No route element found in Google Maps response"
    | some element =>
      if element.status ≠ "OK" then
        .error ("Route calculation failed: " ++ element.status)
      else
        match element.duration_in_traffic with
        | none => .error "No traffic duration data available from Google Maps"
        | some durationInTraffic =>
          let currentTravelTimeMinutes :=
            JSNumber.ceil (JSNumber.divConst durationInTraffic.value 60)
          let delayMinutes :=
            JSNumber.jsMax (JSNumber.num 0)
              (JSNumber.sub currentTravelTimeMinutes baselineMinutes)
          .ok { currentTravelTimeMinutes := currentTravelTimeMinutes,
                delayMinutes := delayMinutes,
                trafficConditions := delayConditions delayMinutes,
                retrievedAt := now }

/-! ## Message generation activity (src/src/activities/message-generation-activity.ts) -/

/-- Lines 240-260 of the message activity: template substitution plus the
conditional route-reference line.  `template` is the activity's
`this.fallbackMessage`. -/
def generateFallbackMessage (template : String) (n : DelayNotification) : String :=
  let message :=
    replaceFirst
      (replaceFirst
        (replaceFirst template "\x7bdelayMinutes\x7d" (JSNumber.jsToString n.delayMinutes))
        "\x7borigin\x7d" n.route.origin)
      "\x7bdestination\x7d" n.route.destination
  if n.route.routeId ≠ "" then
    message ++ "\n\nRoute Reference: " ++ n.route.routeId
  else message

/-- Lines 268-323: `validateGeneratedMessage`.  Only the minimum-length check
throws; the remaining checks accumulate log warnings, returned here so the
non-fatal diagnostics stay visible in the model. -/
def validateGeneratedMessage (message : String) (n : DelayNotification) :
    Except String (List String) :=
  if message.length < 50 then .error "Generated message is too short"
  else
    let warnLong := if 1000 < message.length then ["Message is quite long"] else []
    let delayMentioned :=
      jsIncludes message (JSNumber.jsToString n.delayMinutes) ||
        jsIncludes message.toLower "delay"
    let warnDelay := if delayMentioned then [] else ["Delay not clearly mentioned"]
    let professionalIndicators :=
      ["apologize", "sorry", "inconvenience", "patience", "understanding"]
    let hasProfessionalTone :=
      professionalIndicators.any (fun k => jsIncludes message.toLower k)
    let warnTone :=
      if hasProfessionalTone then [] else ["May lack professional apologetic tone"]
    .ok (warnLong ++ warnDelay ++ warnTone)

/-- Lines 138-200: `generateAIMessage`.  `apiOutcome` is the outcome of the
OpenAI call; a response without content behaves as empty content (both throw
the same empty-content error after `!generatedMessage`). -/
def generateAIMessage (apiOutcome : Except String String) (n : DelayNotification) :
    Except String String :=
  match apiOutcome with
  | .error e => .error e
  | .ok content =>
    let generatedMessage := jsTrim content
    if generatedMessage = "" then
      .error "OpenAI API returned empty message content"
    else
      match validateGeneratedMessage generatedMessage n with
      | .error e => .error e
      | .ok _ => .ok generatedMessage

/-- Which branch produced the result of `generateDelayMessage`; mirrors the
`messageSource` fields of the timer logs (the outer-catch branch, which has no
timer label, is tagged `errorFallback`). -/
inductive MessageSource where
  | ai
  | fallback
  | fallbackAfterAiFailure
  | errorFallback
deriving DecidableEq, Repr

/-- Lines 58-131: `generateDelayMessage`.  `hasClient` is whether
`this.openai` was initialised (an API key was configured); `apiOutcome` the
outcome of the provider call; `template` the activity's fallback template.
Over typed notifications `generateFallbackMessage` is pure string
concatenation and cannot throw, so the outer catch (line 116), reached
exactly when `validateDelayNotification` throws, always returns its fallback
and the re-throw branch (line 128) has no counterpart. -/
def generateDelayMessage (hasClient : Bool) (apiOutcome : Except String String)
    (template : String) (n : DelayNotification) :
    Except String String × MessageSource :=
  match validateDelayNotification n with
  | .error _ => (.ok (generateFallbackMessage template n), .errorFallback)
  | .ok _ =>
    if !hasClient then
      (.ok (generateFallbackMessage template n), .fallback)
    else
      match generateAIMessage apiOutcome n with
      | .ok aiMessage => (.ok aiMessage, .ai)
      | .error _ => (.ok (generateFallbackMessage template n), .fallbackAfterAiFailure)

/-! ## Notification activity (SendGrid part of traffic-monitoring-activity.ts) -/

/-- Lines 447-453 of the notification activity: the validation-message test
opening `isRetryableError`. -/
def isValidationMessage (m : String) : Bool :=
  jsIncludes m "Customer ID must be" ||
  jsIncludes m "Customer email must be" ||
  jsIncludes m "Route must be" ||
  jsIncludes m "Delay minutes must be" ||
  jsIncludes m "Message must be" ||
  jsIncludes m "Sent at must be"

/-- Lines 446-487: `isRetryableError`.  A status of 0 is falsy in
`if (error.response?.status)`, so it falls through like an absent status. -/
def isRetryableError (e : SendGridError) : Bool :=
  if isValidationMessage e.message then false
  else if e.code = some "ECONNRESET" || e.code = some "ETIMEDOUT" ||
      e.code = some "ENOTFOUND" then true
  else
    let statusVerdict : Option Bool :=
      match e.status with
      | some s =>
        if s = 0 then none
        else if 500 ≤ s || s = 429 then some true
        else if 400 ≤ s && s < 500 && s ≠ 429 then some false
        else none
      | none => none
    match statusVerdict with
    | some verdict => verdict
    | none =>
      if jsIncludes e.message "authentication" || jsIncludes e.message "unauthorized" then
        false
      else if jsIncludes e.message "invalid email" || jsIncludes e.message "malformed" then
        false
      else true

/-- Lines 247-299: `sendEmailNotification`.  `providerOutcome` is the result
of the `sgMail.send` call (the rendered HTML/plain bodies do not influence
control flow); `now` is the `new Date()` written to `sentAt` on success.  The
try block also covers `validateDelayNotification`, so a validation throw is
classified by `isRetryableError` like any other error (with no `code` and no
response status).  Returns the boolean outcome together with the
notification as left after the call (mutated with `sentAt` on success). -/
def sendEmailNotification (n : DelayNotification)
    (providerOutcome : Except SendGridError Unit) (now : ℤ) :
    Except String (Bool × DelayNotification) :=
  match validateDelayNotification n with
  | .error m =>
    if isRetryableError ⟨m, none, none⟩ then
      .error ("Retryable email sending error: " ++ m)
    else .ok (false, n)
  | .ok _ =>
    match providerOutcome with
    | .ok _ => .ok (true, { n with sentAt := some now })
    | .error e =>
      if isRetryableError e then
        .error ("Retryable email sending error: " ++ e.message)
      else .ok (false, n)

/-! ## Orchestrating workflow (src/src/workflows/freight-delay-monitor-workflow.ts)

The four activity calls execute out of process behind Temporal proxies; the
workflow only observes, for each call, either a value or a surfaced (post-
retry) error.  `ActivityEnv` supplies those observed outcomes.  `now` stands
for the workflow's logical clock reading recorded in `completedAt`.  The
embedding additionally returns the ordered list of activity invocations, so
that frame claims ("activity X was not called") are statable. -/

/-- Outcomes of the four proxied activities as observed by the workflow. -/
structure ActivityEnv where
  getTrafficData : DeliveryRoute → Except String TrafficData
  calculateDelay : TrafficData → JSNumber → Except String JSNumber
  generateDelayMessage : DelayNotification → Except String String
  sendEmailNotification : DelayNotification → Except String Bool

/-- The activity invocations a workflow execution can make, in order. -/
inductive StepCall where
  | getTrafficData
  | calculateDelay
  | generateDelayMessage
  | sendEmailNotification
deriving DecidableEq, Repr

/-- Lines 260-266: the `DelayNotification` the workflow constructs before
message generation (empty `message`, no `sentAt`). -/
def initialDelayNotification (input : FreightDelayMonitorInput)
    (delayMinutes : JSNumber) : DelayNotification :=
  { customerId := input.customer.customerId,
    customerEmail := input.customer.customerEmail,
    route := input.route,
    delayMinutes := delayMinutes,
    message := "",
    sentAt := none }

/-- Lines 299-302: the workflow-level fallback used when the message
activity itself surfaces an error — template substitution only, with no
route-reference line. -/
def workflowFallbackMessage (config : WorkflowConfig) (delayMinutes : JSNumber)
    (route : DeliveryRoute) : String :=
  replaceFirst
    (replaceFirst
      (replaceFirst config.fallbackMessage "\x7bdelayMinutes\x7d"
        (JSNumber.jsToString delayMinutes))
      "\x7borigin\x7d" route.origin)
    "\x7bdestination\x7d" route.destination

/-- Lines 268-316: the message produced by step 3 (activity result, or the
workflow-level fallback if the activity surfaced an error). -/
def workflowGeneratedMessage (env : ActivityEnv) (input : FreightDelayMonitorInput)
    (delayMinutes : JSNumber) : String :=
  match env.generateDelayMessage (initialDelayNotification input delayMinutes) with
  | .ok generatedMessage => generatedMessage
  | .error _ => workflowFallbackMessage input.config delayMinutes input.route

/-- Line 316: the notification handed to step 4, with `message` filled in. -/
def workflowSentNotification (env : ActivityEnv) (input : FreightDelayMonitorInput)
    (delayMinutes : JSNumber) : DelayNotification :=
  { initialDelayNotification input delayMinutes with
      message := workflowGeneratedMessage env input delayMinutes }

/-- Lines 358-387: the `ApplicationFailure` thrown when a step's error
escapes to the outer catch. -/
def workflowFailure (input : FreightDelayMonitorInput) (errorMessage : String) :
    WorkflowFailure :=
  { message := "Freight delay monitoring workflow failed: " ++ errorMessage,
    failureType := "WorkflowExecutionError",
    routeId := input.route.routeId,
    customerId := input.customer.customerId }

/-- Lines 148-410: `freightDelayMonitorWorkflow`.  Step 2's threshold test is
the inline strict comparison `delayMinutes > config.delayThresholdMinutes`
(line 208).  A message-activity error is absorbed by the inner catch (lines
284-313) and never reaches the outer catch.  The second component records the
activity invocations made. -/
def freightDelayMonitorWorkflow (env : ActivityEnv)
    (input : FreightDelayMonitorInput) (now : ℤ) :
    Except WorkflowFailure FreightDelayMonitorResult × List StepCall :=
  match env.getTrafficData input.route with
  | .error e => (.error (workflowFailure input e), [StepCall.getTrafficData])
  | .ok trafficData =>
    match env.calculateDelay trafficData input.route.baselineTimeMinutes with
    | .error e =>
      (.error (workflowFailure input e),
       [StepCall.getTrafficData, StepCall.calculateDelay])
    | .ok delayMinutes =>
      if JSNumber.gt delayMinutes input.config.delayThresholdMinutes then
        match env.sendEmailNotification (workflowSentNotification env input delayMinutes) with
        | .error e =>
          (.error (workflowFailure input e),
           [StepCall.getTrafficData, StepCall.calculateDelay,
            StepCall.generateDelayMessage, StepCall.sendEmailNotification])
        | .ok notificationSuccess =>
          (.ok { delayDetected := true,
                 delayMinutes := delayMinutes,
                 notificationSent := notificationSuccess,
                 errorMessage :=
                   if notificationSuccess then none
                   else some "Failed to send email notification after all retry attempts",
                 completedAt := now },
           [StepCall.getTrafficData, StepCall.calculateDelay,
            StepCall.generateDelayMessage, StepCall.sendEmailNotification])
      else
        (.ok { delayDetected := false,
               delayMinutes := delayMinutes,
               notificationSent := false,
               errorMessage := none,
               completedAt := now },
         [StepCall.getTrafficData, StepCall.calculateDelay])

/-! ## Theorems -/

/-- C2: for every input notification — valid or not — and every provider
configuration and provider outcome, `generateDelayMessage` returns a string
and never propagates an exception to its caller: validation failures, AI-path
failures and provider failures are all absorbed by the internal fallback. -/
theorem generateDelayMessage_never_throws (hasClient : Bool)
    (apiOutcome : Except String String) (template : String)
    (n : DelayNotification) :
    ∃ s : String, (generateDelayMessage hasClient apiOutcome template n).1 = .ok s := by
  unfold generateDelayMessage
  cases hv : validateDelayNotification n with
  | error e => exact ⟨_, rfl⟩
  | ok u =>
    cases hasClient with
    | false => exact ⟨_, rfl⟩
    | true =>
      cases hai : generateAIMessage apiOutcome n with
      | error e => simp [hai]
      | ok m => simp [hai]

/-- C3: `exceedsThreshold delay threshold` succeeds with `delay > threshold`
(strict: equality yields `false`) whenever `delay ≥ 0` and `threshold > 0`,
fails with the delay validation error on negative or NaN delay, fails with
the threshold validation error on non-positive or NaN threshold, and every
normally returned workflow result has `delayDetected` equal to the same
strict comparison of its `delayMinutes` against
`config.delayThresholdMinutes`. -/
theorem exceedsThreshold_strict :
    (∀ d t : ℚ, 0 ≤ d → 0 < t →
      exceedsThreshold (.num d) (.num t) = .ok (decide (t < d)))
    ∧ (∀ d t : ℚ, d < 0 →
      exceedsThreshold (.num d) (.num t) = .error "Delay must be a non-negative number")
    ∧ (∀ t : JSNumber,
      exceedsThreshold .nan t = .error "Delay must be a non-negative number")
    ∧ (∀ d t : ℚ, 0 ≤ d → t ≤ 0 →
      exceedsThreshold (.num d) (.num t) = .error "Threshold must be a positive number")
    ∧ (∀ d : ℚ, 0 ≤ d →
      exceedsThreshold (.num d) .nan = .error "Threshold must be a positive number")
    ∧ (∀ (env : ActivityEnv) (input : FreightDelayMonitorInput) (now : ℤ)
        (res : FreightDelayMonitorResult) (trace : List StepCall),
      freightDelayMonitorWorkflow env input now = (.ok res, trace) →
      res.delayDetected = JSNumber.gt res.delayMinutes input.config.delayThresholdMinutes) := by
  refine ⟨?_, ?_, ?_, ?_, ?_, ?_⟩
  · intro d t hd ht
    simp [exceedsThreshold, JSNumber.lt, JSNumber.le, JSNumber.isNaN, JSNumber.gt,
      not_lt.mpr hd, not_le.mpr ht]
  · intro d t hd
    simp [exceedsThreshold, JSNumber.lt, JSNumber.isNaN, hd]
  · intro t
    simp [exceedsThreshold, JSNumber.lt, JSNumber.isNaN]
  · intro d t hd ht
    simp [exceedsThreshold, JSNumber.lt, JSNumber.le, JSNumber.isNaN,
      not_lt.mpr hd, ht]
  · intro d hd
    simp [exceedsThreshold, JSNumber.lt, JSNumber.le, JSNumber.isNaN, not_lt.mpr hd]
  · intro env input now res trace h
    unfold freightDelayMonitorWorkflow at h
    cases hg : env.getTrafficData input.route with
    | error e => simp [hg] at h
    | ok td =>
      simp only [hg] at h
      cases hc : env.calculateDelay td input.route.baselineTimeMinutes with
      | error e => simp [hc] at h
      | ok delay =>
        simp only [hc] at h
        cases hb : JSNumber.gt delay input.config.delayThresholdMinutes with
        | false =>
          rw [hb] at h
          simp only [Bool.false_eq_true, if_false, Prod.mk.injEq, Except.ok.injEq] at h
          obtain ⟨h1, h2⟩ := h
          subst h1
          simpa using hb.symm
        | true =>
          rw [hb] at h
          simp only [if_true] at h
          cases hs : env.sendEmailNotification (workflowSentNotification env input delay) with
          | error e => simp [hs] at h
          | ok sent =>
            simp only [hs, Prod.mk.injEq, Except.ok.injEq] at h
            obtain ⟨h1, h2⟩ := h
            subst h1
            simpa using hb.symm

/-- Witness for C3: delay 30 at threshold 30 does not trigger (strictness),
delay 31 at threshold 30 does, and a concrete workflow run obeys the
invariant. -/
theorem exceedsThreshold_strict_witness :
    exceedsThreshold (.num 30) (.num 30) = .ok false
    ∧ exceedsThreshold (.num 31) (.num 30) = .ok true
    ∧ exceedsThreshold (.num (-1)) (.num 30) = .error "Delay must be a non-negative number"
    ∧ exceedsThreshold (.num 5) (.num 0) = .error "Threshold must be a positive number" := by
  refine ⟨?_, ?_, ?_, ?_⟩
  · have h := exceedsThreshold_strict.1 30 30 (by norm_num) (by norm_num)
    simpa using h
  · have h := exceedsThreshold_strict.1 31 30 (by norm_num) (by norm_num)
    simpa using h
  · exact exceedsThreshold_strict.2.1 (-1) 30 (by norm_num)
  · exact exceedsThreshold_strict.2.2.2.1 5 0 (by norm_num) (by norm_num)

/-- C4: for any traffic snapshot with current travel time `c ≥ 0` (and a
well-formed conditions string) and any baseline `b > 0`, `calculateDelay`
returns `max 0 (c - b)`; it fails with the respective validation error when
the current travel time is negative or the baseline non-positive; and the
snapshot's own `delayMinutes` field never influences the outcome — two
snapshots differing only in `delayMinutes` (however large the discrepancy)
yield identical results, so the recomputed value is authoritative and a
mismatch never fails the operation. -/
theorem calculateDelay_spec :
    (∀ (td : TrafficData) (c b : ℚ), td.currentTravelTimeMinutes = .num c → 0 ≤ c →
      td.trafficConditions ≠ "" → 0 < b →
      calculateDelay td (.num b) = .ok (.num (max 0 (c - b))))
    ∧ (∀ (td : TrafficData) (c : ℚ) (b : JSNumber), td.currentTravelTimeMinutes = .num c →
      c < 0 →
      calculateDelay td b = .error "Current travel time must be a non-negative number")
    ∧ (∀ (td : TrafficData) (b : ℚ), validateTrafficData td = .ok () → b ≤ 0 →
      calculateDelay td (.num b) = .error "Baseline travel time must be a positive number")
    ∧ (∀ (td₁ td₂ : TrafficData) (b : JSNumber),
      td₁.currentTravelTimeMinutes = td₂.currentTravelTimeMinutes →
      td₁.trafficConditions = td₂.trafficConditions →
      td₁.retrievedAt = td₂.retrievedAt →
      calculateDelay td₁ b = calculateDelay td₂ b) := by
  refine ⟨?_, ?_, ?_, ?_⟩
  · intro td c b hcur hc hcond hb
    simp [calculateDelay, validateTrafficData, hcur, hcond, JSNumber.lt, JSNumber.le,
      JSNumber.jsMax, JSNumber.sub, not_lt.mpr hc, not_le.mpr hb]
  · intro td c b hcur hc
    simp [calculateDelay, validateTrafficData, hcur, JSNumber.lt, hc]
  · intro td b hv hb
    simp [calculateDelay, hv, JSNumber.le, hb]
  · intro td₁ td₂ b hcur hcond hret
    simp only [calculateDelay, validateTrafficData, hcur, hcond]

/-- Witness for C4: current=45, baseline=30 gives delay 15; current=25,
baseline=30 gives delay 0; and snapshots whose own `delayMinutes` is wildly
inconsistent (0 versus 999) produce the same result. -/
theorem calculateDelay_spec_witness :
    calculateDelay ⟨.num 45, .num 15, "Light traffic delays", 0⟩ (.num 30) = .ok (.num 15)
    ∧ calculateDelay ⟨.num 25, .num 0, "Normal traffic conditions", 0⟩ (.num 30) = .ok (.num 0)
    ∧ calculateDelay ⟨.num 45, .num 999, "Light traffic delays", 0⟩ (.num 30)
        = calculateDelay ⟨.num 45, .num 0, "Light traffic delays", 0⟩ (.num 30)
    ∧ calculateDelay ⟨.num 45, .num 15, "Light traffic delays", 0⟩ (.num 0)
        = .error "Baseline travel time must be a positive number" := by
  refine ⟨?_, ?_, ?_, ?_⟩
  · have h := calculateDelay_spec.1 ⟨.num 45, .num 15, "Light traffic delays", 0⟩ 45 30
      rfl (by norm_num) (by simp) (by norm_num)
    have e : ((0 : ℚ) ⊔ (45 - 30)) = 15 := by norm_num
    rw [e] at h
    exact h
  · have h := calculateDelay_spec.1 ⟨.num 25, .num 0, "Normal traffic conditions", 0⟩ 25 30
      rfl (by norm_num) (by simp) (by norm_num)
    have e : ((0 : ℚ) ⊔ (25 - 30)) = 0 := by norm_num
    rw [e] at h
    exact h
  · exact calculateDelay_spec.2.2.2 _ _ (.num 30) rfl rfl rfl
  · exact calculateDelay_spec.2.2.1 _ 0 (by rfl) (by norm_num)

/-- C8: the message-generation fallback equals the configured template with
the first occurrences of the delay, origin and destination placeholders
substituted from the notification, followed by a route-reference line exactly
when `routeId` is non-empty; and it is a pure function of the template,
delay, origin, destination and route id — any two notifications agreeing on
those fields produce byte-identical fallback output. -/
theorem generateFallbackMessage_spec :
    (∀ (template : String) (n : DelayNotification),
      generateFallbackMessage template n =
        (if n.route.routeId = "" then
          replaceFirst
            (replaceFirst
              (replaceFirst template "\x7bdelayMinutes\x7d"
                (JSNumber.jsToString n.delayMinutes))
              "\x7borigin\x7d" n.route.origin)
            "\x7bdestination\x7d" n.route.destination
        else
          replaceFirst
            (replaceFirst
              (replaceFirst template "\x7bdelayMinutes\x7d"
                (JSNumber.jsToString n.delayMinutes))
              "\x7borigin\x7d" n.route.origin)
            "\x7bdestination\x7d" n.route.destination
          ++ "\n\nRoute Reference: " ++ n.route.routeId))
    ∧ (∀ (template : String) (n₁ n₂ : DelayNotification),
      n₁.delayMinutes = n₂.delayMinutes →
      n₁.route.origin = n₂.route.origin →
      n₁.route.destination = n₂.route.destination →
      n₁.route.routeId = n₂.route.routeId →
      generateFallbackMessage template n₁ = generateFallbackMessage template n₂) := by
  constructor
  · intro template n
    by_cases h : n.route.routeId = ""
    · simp [generateFallbackMessage, h]
    · simp [generateFallbackMessage, h]
  · intro template n₁ n₂ hdelay horigin hdest hroute
    simp only [generateFallbackMessage, hdelay, horigin, hdest, hroute]

/-- Witness for C8: a concrete substitution with a non-empty route id gets
the route-reference line; determinism holds between two notifications that
differ in customer and message but agree on the substituted fields. -/
theorem generateFallbackMessage_spec_witness :
    generateFallbackMessage "Delay of \x7bdelayMinutes\x7d minutes from \x7borigin\x7d to \x7bdestination\x7d."
        ⟨"CUST-1", "a@b.co", ⟨"ROUTE-9", "Oakland", "Fresno", .num 60⟩, .num 20, "", none⟩
      = "Delay of 20 minutes from Oakland to Fresno.\n\nRoute Reference: ROUTE-9"
    ∧ generateFallbackMessage "T \x7bdelayMinutes\x7d"
        ⟨"CUST-1", "a@b.co", ⟨"ROUTE-9", "Oakland", "Fresno", .num 60⟩, .num 20, "", none⟩
      = generateFallbackMessage "T \x7bdelayMinutes\x7d"
        ⟨"CUST-2", "c@d.ef", ⟨"ROUTE-9", "Oakland", "Fresno", .num 90⟩, .num 20, "filled", some 5⟩ := by
  constructor
  · have h := generateFallbackMessage_spec.1
      "Delay of \x7bdelayMinutes\x7d minutes from \x7borigin\x7d to \x7bdestination\x7d."
      ⟨"CUST-1", "a@b.co", ⟨"ROUTE-9", "Oakland", "Fresno", .num 60⟩, .num 20, "", none⟩
    rw [h]
    decide
  · exact generateFallbackMessage_spec.2 "T \x7bdelayMinutes\x7d" _ _ rfl rfl rfl rfl

/-- Every message `validateDelayNotification` can throw is matched by the
validation-message test that opens `isRetryableError`, so a validation throw
inside `sendEmailNotification` is always classified non-retryable. -/
lemma validationThrow_not_retryable (n : DelayNotification) (m : String)
    (h : validateDelayNotification n = .error m) :
    isValidationMessage m = true := by
  unfold validateDelayNotification at h
  split at h
  · cases h
    decide
  · split at h
    · cases h
      decide
    · split at h
      · cases h
        decide
      · split at h
        · cases h
          decide
        · split at h
          · cases h
            decide
          · cases h

/-- C6: `sendEmailNotification` raises exactly when the failure is classified
retryable and otherwise absorbs it: a notification failing validation returns
`false` without raising; a provider error raises iff `isRetryableError` holds
of it; it returns `true` exactly when validation and the provider call both
succeed (stamping `sentAt`).  The classifier marks network
reset/timeout/DNS-not-found codes, HTTP 5xx and HTTP 429 retryable, marks
HTTP 4xx other than 429 non-retryable, and defaults to retryable for
errors that fall through every classification. -/
theorem sendEmailNotification_classification :
    (∀ (n : DelayNotification) (outcome : Except SendGridError Unit) (now : ℤ) (m : String),
      validateDelayNotification n = .error m →
      sendEmailNotification n outcome now = .ok (false, n))
    ∧ (∀ (n : DelayNotification) (e : SendGridError) (now : ℤ),
      validateDelayNotification n = .ok () → isRetryableError e = true →
      sendEmailNotification n (.error e) now =
        .error ("Retryable email sending error: " ++ e.message))
    ∧ (∀ (n : DelayNotification) (e : SendGridError) (now : ℤ),
      validateDelayNotification n = .ok () → isRetryableError e = false →
      sendEmailNotification n (.error e) now = .ok (false, n))
    ∧ (∀ (n : DelayNotification) (now : ℤ),
      validateDelayNotification n = .ok () →
      sendEmailNotification n (.ok ()) now = .ok (true, { n with sentAt := some now }))
    ∧ (∀ (n : DelayNotification) (outcome : Except SendGridError Unit) (now : ℤ)
        (r : DelayNotification),
      sendEmailNotification n outcome now = .ok (true, r) →
      validateDelayNotification n = .ok () ∧ outcome = .ok () ∧
        r = { n with sentAt := some now })
    ∧ (∀ e : SendGridError, isValidationMessage e.message = false →
      (e.code = some "ECONNRESET" ∨ e.code = some "ETIMEDOUT" ∨ e.code = some "ENOTFOUND") →
      isRetryableError e = true)
    ∧ (∀ (e : SendGridError) (s : ℤ), isValidationMessage e.message = false →
      e.status = some s → (500 ≤ s ∨ s = 429) →
      isRetryableError e = true)
    ∧ (∀ (e : SendGridError) (s : ℤ),
      e.code ≠ some "ECONNRESET" → e.code ≠ some "ETIMEDOUT" → e.code ≠ some "ENOTFOUND" →
      e.status = some s → 400 ≤ s → s < 500 → s ≠ 429 →
      isRetryableError e = false)
    ∧ (∀ e : SendGridError, isValidationMessage e.message = false →
      e.code ≠ some "ECONNRESET" → e.code ≠ some "ETIMEDOUT" → e.code ≠ some "ENOTFOUND" →
      e.status = none →
      jsIncludes e.message "authentication" = false →
      jsIncludes e.message "unauthorized" = false →
      jsIncludes e.message "invalid email" = false →
      jsIncludes e.message "malformed" = false →
      isRetryableError e = true) := by
  refine ⟨?_, ?_, ?_, ?_, ?_, ?_, ?_, ?_, ?_⟩
  · intro n outcome now m hv
    have hm := validationThrow_not_retryable n m hv
    simp [sendEmailNotification, hv, isRetryableError, hm]
  · intro n e now hv hr
    simp [sendEmailNotification, hv, hr]
  · intro n e now hv hr
    simp [sendEmailNotification, hv, hr]
  · intro n now hv
    simp [sendEmailNotification, hv]
  · intro n outcome now r h
    unfold sendEmailNotification at h
    cases hv : validateDelayNotification n with
    | error m =>
      rw [hv] at h
      have hm := validationThrow_not_retryable n m hv
      simp [isRetryableError, hm] at h
    | ok u =>
      rw [hv] at h
      cases outcome with
      | ok u2 => simpa using h.symm
      | error e =>
        by_cases hr : isRetryableError e = true
        · simp [hr] at h
        · simp [Bool.not_eq_true] at hr
          simp [hr] at h
  · intro e hm hc
    unfold isRetryableError
    rcases hc with hc | hc | hc <;> simp [hm, hc]
  · intro e s hm hs hrange
    have h0 : s ≠ 0 := by
      rcases hrange with h5 | h4 <;> omega
    unfold isRetryableError
    rcases hge : (e.code = some "ECONNRESET" || e.code = some "ETIMEDOUT" ||
        e.code = some "ENOTFOUND") with _ | _
    · rcases hrange with h5 | h4
      · simp [hm, hs, h0, h5]
      · simp [hm, hs, h0, h4]
    · simp [hm, hge]
  · intro e s hc1 hc2 hc3 hs h400 h500 h429
    have h0 : s ≠ 0 := by omega
    have hn5 : ¬(500 ≤ s) := by omega
    unfold isRetryableError
    by_cases hm : isValidationMessage e.message
    · simp [hm]
    · simp [hm, hc1, hc2, hc3, hs, h0, hn5, h429, h400, h500]
  · intro e hm hc1 hc2 hc3 hs ha1 ha2 hi1 hi2
    simp [isRetryableError, hm, hc1, hc2, hc3, hs, ha1, ha2, hi1, hi2]

/-- Witness for C6: a notification with an empty customer id is refused with
`false`; for a valid notification an HTTP 503 raises, an HTTP 401 returns
`false`, an unclassified error raises, and provider success returns `true`. -/
theorem sendEmailNotification_classification_witness :
    sendEmailNotification
        ⟨"", "a@b.co", ⟨"R1", "A", "B", .num 60⟩, .num 5, "hello", none⟩
        (.ok ()) 7
      = .ok (false, ⟨"", "a@b.co", ⟨"R1", "A", "B", .num 60⟩, .num 5, "hello", none⟩)
    ∧ sendEmailNotification
        ⟨"C9", "a@b.co", ⟨"R1", "A", "B", .num 60⟩, .num 5, "hello", none⟩
        (.error ⟨"service unavailable", none, some 503⟩) 7
      = .error "Retryable email sending error: service unavailable"
    ∧ sendEmailNotification
        ⟨"C9", "a@b.co", ⟨"R1", "A", "B", .num 60⟩, .num 5, "hello", none⟩
        (.error ⟨"bad key", none, some 401⟩) 7
      = .ok (false, ⟨"C9", "a@b.co", ⟨"R1", "A", "B", .num 60⟩, .num 5, "hello", none⟩)
    ∧ sendEmailNotification
        ⟨"C9", "a@b.co", ⟨"R1", "A", "B", .num 60⟩, .num 5, "hello", none⟩
        (.error ⟨"mystery failure", none, none⟩) 7
      = .error "Retryable email sending error: mystery failure"
    ∧ sendEmailNotification
        ⟨"C9", "a@b.co", ⟨"R1", "A", "B", .num 60⟩, .num 5, "hello", none⟩
        (.ok ()) 7
      = .ok (true, ⟨"C9", "a@b.co", ⟨"R1", "A", "B", .num 60⟩, .num 5, "hello", some 7⟩) := by
  refine ⟨?_, ?_, ?_, ?_, ?_⟩
  · exact sendEmailNotification_classification.1 _ (.ok ()) 7
      "Customer ID must be a non-empty string" (by rfl)
  · exact sendEmailNotification_classification.2.1 _ ⟨"service unavailable", none, some 503⟩ 7
      (by rfl) (by rfl)
  · exact sendEmailNotification_classification.2.2.1 _ ⟨"bad key", none, some 401⟩ 7
      (by rfl) (by rfl)
  · exact sendEmailNotification_classification.2.1 _ ⟨"mystery failure", none, none⟩ 7
      (by rfl) (by rfl)
  · exact sendEmailNotification_classification.2.2.2.1 _ 7 (by rfl)

/-- C9: on a provider response whose first route element has status OK and a
traffic-adjusted duration of `s` seconds, `parseGoogleMapsResponse` returns
the travel time `⌈s/60⌉` minutes (rounded up to a whole minute), the delay
`max 0 (⌈s/60⌉ - baseline)`, and traffic conditions classified by delay
magnitude — 0 Normal, 1–15 Light, 16–30 Moderate, 31+ Heavy. -/
theorem parseGoogleMapsResponse_spec :
    (∀ (response : GoogleMapsResponse) (element : GMElement) (dText : String)
        (s b : ℚ) (now : ℤ),
      (response.rows.head? >>= fun row => row.elements.head?) = some element →
      element.status = "OK" →
      element.duration_in_traffic = some ⟨dText, .num s⟩ →
      parseGoogleMapsResponse response (.num b) now =
        .ok { currentTravelTimeMinutes := .num ((⌈s / 60⌉ : ℤ) : ℚ),
              delayMinutes := .num (max 0 (((⌈s / 60⌉ : ℤ) : ℚ) - b)),
              trafficConditions :=
                delayConditions (.num (max 0 (((⌈s / 60⌉ : ℤ) : ℚ) - b))),
              retrievedAt := now })
    ∧ (∀ d : ℚ,
      (d = 0 → delayConditions (.num d) = "Normal traffic conditions")
      ∧ (1 ≤ d → d ≤ 15 → delayConditions (.num d) = "Light traffic delays")
      ∧ (16 ≤ d → d ≤ 30 → delayConditions (.num d) = "Moderate traffic delays")
      ∧ (31 ≤ d → delayConditions (.num d) = "Heavy traffic delays")) := by
  constructor
  · intro response element dText s b now hel hst hdur
    have hrows : response.rows.isEmpty = false := by
      cases hr : response.rows.head? with
      | none => rw [hr] at hel; simp at hel
      | some row =>
        cases hrl : response.rows with
        | nil => rw [hrl] at hr; simp at hr
        | cons a l => simp [hrl]
    unfold parseGoogleMapsResponse
    rw [hrows, hel]
    simp [hst, hdur, JSNumber.ceil, JSNumber.divConst, JSNumber.sub, JSNumber.jsMax]
  · intro d
    refine ⟨?_, ?_, ?_, ?_⟩
    · intro h
      simp [delayConditions, JSNumber.strictEq, h]
    · intro h1 h15
      have hne : d ≠ 0 := by linarith
      simp [delayConditions, JSNumber.strictEq, JSNumber.le, hne, h15]
    · intro h16 h30
      have hne : d ≠ 0 := by linarith
      have hgt : ¬ d ≤ 15 := by linarith
      simp [delayConditions, JSNumber.strictEq, JSNumber.le, hne, hgt, h30]
    · intro h31
      have hne : d ≠ 0 := by linarith
      have hgt : ¬ d ≤ 15 := by linarith
      have hgt2 : ¬ d ≤ 30 := by linarith
      simp [delayConditions, JSNumber.strictEq, JSNumber.le, hne, hgt, hgt2]

/-- Witness for C9: a 2700-second traffic duration against baseline 30 parses
to 45 minutes travel time, a 15-minute delay, and Light conditions. -/
theorem parseGoogleMapsResponse_spec_witness :
    parseGoogleMapsResponse
        ⟨["d"], ["o"], [⟨[⟨some ⟨"45 mins", .num 2700⟩, "OK"⟩]⟩], "OK"⟩ (.num 30) 3
      = .ok ⟨.num 45, .num 15, "Light traffic delays", 3⟩
    ∧ delayConditions (.num 0) = "Normal traffic conditions"
    ∧ delayConditions (.num 16) = "Moderate traffic delays"
    ∧ delayConditions (.num 31) = "Heavy traffic delays" := by
  refine ⟨?_, ?_, ?_, ?_⟩
  · have h := parseGoogleMapsResponse_spec.1
      ⟨["d"], ["o"], [⟨[⟨some ⟨"45 mins", .num 2700⟩, "OK"⟩]⟩], "OK"⟩
      ⟨some ⟨"45 mins", .num 2700⟩, "OK"⟩ "45 mins" 2700 30 3 rfl rfl rfl
    have e1 : ((⌈(2700 : ℚ) / 60⌉ : ℤ) : ℚ) = 45 := by norm_num
    rw [e1] at h
    have e2 : (max (0 : ℚ) (45 - 30)) = 15 := by norm_num
    rw [e2] at h
    exact h
  · exact (parseGoogleMapsResponse_spec.2 0).1 rfl
  · exact ((parseGoogleMapsResponse_spec.2 16).2.2.1 (by norm_num) (by norm_num))
  · exact ((parseGoogleMapsResponse_spec.2 31).2.2.2 (by norm_num))

/-- C5: whenever the computed delay does not exceed the threshold, the
workflow completes immediately with `delayDetected = false` and
`notificationSent = false`, having invoked only the traffic and
delay-analysis activities — neither message generation nor email delivery is
called. -/
theorem workflow_noNotification_path :
    ∀ (env : ActivityEnv) (input : FreightDelayMonitorInput) (now : ℤ)
      (td : TrafficData) (delay : JSNumber),
      env.getTrafficData input.route = .ok td →
      env.calculateDelay td input.route.baselineTimeMinutes = .ok delay →
      JSNumber.gt delay input.config.delayThresholdMinutes = false →
      freightDelayMonitorWorkflow env input now =
        (.ok { delayDetected := false, delayMinutes := delay,
               notificationSent := false, errorMessage := none, completedAt := now },
         [StepCall.getTrafficData, StepCall.calculateDelay]) := by
  intro env input now td delay hg hc hb
  unfold freightDelayMonitorWorkflow
  rw [hg]
  simp only []
  rw [hc]
  simp [hb]

/-- Witness for C5: a concrete run with delay 10 against threshold 15 stops
after delay analysis. -/
theorem workflow_noNotification_path_witness :
    freightDelayMonitorWorkflow
        ⟨fun _ => .ok ⟨.num 40, .num 10, "Light traffic delays", 0⟩,
         fun _ _ => .ok (.num 10),
         fun _ => .ok "msg",
         fun _ => .ok true⟩
        ⟨⟨"R1", "A", "B", .num 30⟩, ⟨"C1", "a@b.co"⟩, ⟨.num 15, .num 3, "fb"⟩⟩ 0 =
      (.ok { delayDetected := false, delayMinutes := .num 10,
             notificationSent := false, errorMessage := none, completedAt := 0 },
       [StepCall.getTrafficData, StepCall.calculateDelay]) := by
  exact workflow_noNotification_path _ _ 0 ⟨.num 40, .num 10, "Light traffic delays", 0⟩
    (.num 10) rfl rfl (by rfl)

/-- C7: once the delay exceeds the threshold, an email activity that returns
`false` does not fail the workflow — it completes with
`notificationSent = false` and a descriptive `errorMessage` — while an email
activity that raises makes the workflow fail with a typed
WorkflowExecutionError failure instead of returning a result. -/
theorem workflow_email_outcome :
    ∀ (env : ActivityEnv) (input : FreightDelayMonitorInput) (now : ℤ)
      (td : TrafficData) (delay : JSNumber),
      env.getTrafficData input.route = .ok td →
      env.calculateDelay td input.route.baselineTimeMinutes = .ok delay →
      JSNumber.gt delay input.config.delayThresholdMinutes = true →
      (env.sendEmailNotification (workflowSentNotification env input delay) = .ok false →
        freightDelayMonitorWorkflow env input now =
          (.ok { delayDetected := true, delayMinutes := delay,
                 notificationSent := false,
                 errorMessage :=
                   some "Failed to send email notification after all retry attempts",
                 completedAt := now },
           [StepCall.getTrafficData, StepCall.calculateDelay,
            StepCall.generateDelayMessage, StepCall.sendEmailNotification]))
      ∧ (∀ e : String,
        env.sendEmailNotification (workflowSentNotification env input delay) = .error e →
        freightDelayMonitorWorkflow env input now =
          (.error { message := "Freight delay monitoring workflow failed: " ++ e,
                    failureType := "WorkflowExecutionError",
                    routeId := input.route.routeId,
                    customerId := input.customer.customerId },
           [StepCall.getTrafficData, StepCall.calculateDelay,
            StepCall.generateDelayMessage, StepCall.sendEmailNotification])) := by
  intro env input now td delay hg hc hb
  constructor
  · intro hs
    unfold freightDelayMonitorWorkflow
    rw [hg]
    simp only []
    rw [hc]
    simp [hb, hs]
  · intro e hs
    unfold freightDelayMonitorWorkflow
    rw [hg]
    simp only []
    rw [hc]
    simp [hb, hs, workflowFailure]

/-- Witness for C7: a concrete exceeded-threshold run in which the email
activity returns `false` completes softly; the same run with a raising email
activity fails with a WorkflowExecutionError. -/
theorem workflow_email_outcome_witness :
    freightDelayMonitorWorkflow
        ⟨fun _ => .ok ⟨.num 50, .num 20, "Moderate traffic delays", 0⟩,
         fun _ _ => .ok (.num 20),
         fun _ => .ok "msg",
         fun _ => .ok false⟩
        ⟨⟨"R1", "A", "B", .num 30⟩, ⟨"C1", "a@b.co"⟩, ⟨.num 15, .num 3, "fb"⟩⟩ 0 =
      (.ok { delayDetected := true, delayMinutes := .num 20,
             notificationSent := false,
             errorMessage :=
               some "Failed to send email notification after all retry attempts",
             completedAt := 0 },
       [StepCall.getTrafficData, StepCall.calculateDelay,
        StepCall.generateDelayMessage, StepCall.sendEmailNotification])
    ∧ freightDelayMonitorWorkflow
        ⟨fun _ => .ok ⟨.num 50, .num 20, "Moderate traffic delays", 0⟩,
         fun _ _ => .ok (.num 20),
         fun _ => .ok "msg",
         fun _ => .error "Retryable email sending error: boom"⟩
        ⟨⟨"R1", "A", "B", .num 30⟩, ⟨"C1", "a@b.co"⟩, ⟨.num 15, .num 3, "fb"⟩⟩ 0 =
      (.error { message :=
                  "Freight delay monitoring workflow failed: Retryable email sending error: boom",
                failureType := "WorkflowExecutionError",
                routeId := "R1", customerId := "C1" },
       [StepCall.getTrafficData, StepCall.calculateDelay,
        StepCall.generateDelayMessage, StepCall.sendEmailNotification]) := by
  constructor
  · exact (workflow_email_outcome _ _ 0 ⟨.num 50, .num 20, "Moderate traffic delays", 0⟩
      (.num 20) rfl rfl (by rfl)).1 rfl
  · exact (workflow_email_outcome _ _ 0 ⟨.num 50, .num 20, "Moderate traffic delays", 0⟩
      (.num 20) rfl rfl (by rfl)).2 _ rfl

/-- C10: every result the workflow returns normally carries an
`errorMessage` exactly when a delay was detected but the notification was
not sent; in particular the within-threshold path and the notification-sent
path return no `errorMessage`. -/
theorem workflowResult_errorMessage_invariant :
    ∀ (env : ActivityEnv) (input : FreightDelayMonitorInput) (now : ℤ)
      (res : FreightDelayMonitorResult) (trace : List StepCall),
      freightDelayMonitorWorkflow env input now = (.ok res, trace) →
      (res.errorMessage.isSome ↔ (res.delayDetected = true ∧ res.notificationSent = false)) := by
  intro env input now res trace h
  unfold freightDelayMonitorWorkflow at h
  cases hg : env.getTrafficData input.route with
  | error e => simp [hg] at h
  | ok td =>
    simp only [hg] at h
    cases hc : env.calculateDelay td input.route.baselineTimeMinutes with
    | error e => simp [hc] at h
    | ok delay =>
      simp only [hc] at h
      cases hb : JSNumber.gt delay input.config.delayThresholdMinutes with
      | false =>
        rw [hb] at h
        simp only [Bool.false_eq_true, if_false, Prod.mk.injEq, Except.ok.injEq] at h
        obtain ⟨h1, h2⟩ := h
        subst h1
        simp
      | true =>
        rw [hb] at h
        simp only [if_true] at h
        cases hs : env.sendEmailNotification (workflowSentNotification env input delay) with
        | error e => simp [hs] at h
        | ok sent =>
          simp only [hs, Prod.mk.injEq, Except.ok.injEq] at h
          obtain ⟨h1, h2⟩ := h
          subst h1
          cases sent <;> simp

/-- Witness for C10: the invariant instantiated on a concrete successful
notification run. -/
theorem workflowResult_errorMessage_invariant_witness :
    (({ delayDetected := true, delayMinutes := .num 20, notificationSent := true,
        errorMessage := none, completedAt := 0 } :
          FreightDelayMonitorResult).errorMessage.isSome
      ↔ (true = true ∧ true = false)) := by
  have h := workflowResult_errorMessage_invariant
    ⟨fun _ => .ok ⟨.num 50, .num 20, "Moderate traffic delays", 0⟩,
     fun _ _ => .ok (.num 20),
     fun _ => .ok "msg",
     fun _ => .ok true⟩
    ⟨⟨"R1", "A", "B", .num 30⟩, ⟨"C1", "a@b.co"⟩, ⟨.num 15, .num 3, "fb"⟩⟩ 0
    { delayDetected := true, delayMinutes := .num 20, notificationSent := true,
      errorMessage := none, completedAt := 0 }
    [StepCall.getTrafficData, StepCall.calculateDelay,
     StepCall.generateDelayMessage, StepCall.sendEmailNotification]
    (by rfl)
  exact h

/-- The notification the workflow constructs before message generation for
the repository's own message-generation test fixture (test file lines 30-49):
a valid customer, email and route, a 45-minute delay, and the message still
empty. -/
def emptyMessageNotification : DelayNotification :=
  { customerId := "CUST-456",
    customerEmail := "customer@example.com",
    route := { routeId := "ROUTE-123", origin := "New York, NY",
               destination := "Boston, MA", baselineTimeMinutes := .num 240 },
    delayMinutes := .num 45,
    message := "",
    sentAt := none }

/-- C1 (refuted; the code contradicts the spec and the repository's own
test): the notification the workflow hands to message generation — empty
message, all other fields valid — is exactly `emptyMessageNotification`; far
from ignoring the message field, `validateDelayNotification` rejects it with
the non-empty-message error; filling the message is the only change needed
to make validation pass; and consequently `generateDelayMessage` takes the
internal fallback path for it under every provider configuration and every
provider outcome — the AI-generation path is never reached from the
workflow even when a credential is configured. -/
theorem emptyMessage_rejected_ai_path_unreachable :
    (∀ config : WorkflowConfig,
      initialDelayNotification
        ⟨{ routeId := "ROUTE-123", origin := "New York, NY",
           destination := "Boston, MA", baselineTimeMinutes := .num 240 },
         ⟨"CUST-456", "customer@example.com"⟩, config⟩ (.num 45)
        = emptyMessageNotification)
    ∧ validateDelayNotification emptyMessageNotification
        = .error "Message must be a non-empty string"
    ∧ validateDelayNotification { emptyMessageNotification with message := "x" } = .ok ()
    ∧ (∀ (apiOutcome : Except String String) (template : String),
      generateDelayMessage true apiOutcome template emptyMessageNotification
        = (.ok (generateFallbackMessage template emptyMessageNotification),
           .errorFallback)) := by
  refine ⟨?_, ?_, ?_, ?_⟩
  · intro config
    rfl
  · rfl
  · rfl
  · intro apiOutcome template
    unfold generateDelayMessage
    rw [show validateDelayNotification emptyMessageNotification
      = .error "Message must be a non-empty string" from rfl]

end Freight
